import Mathlib

/-!
# React-Project-Boilerplate: API config selector and webpack configuration

A shallow embedding of the two source files

* `src/config/apiConfig/index.js` (namespace `ApiConfig`), and
* `src/build/webpack.config.js` (namespace `Webpack`),

followed by the theorems about them.

Both files are straight-line JavaScript that builds one value from its inputs.
The inputs that live outside the two files are parameters of the embedding:
the modules `./dev` and `./prod`, the environment variable `NODE_ENV`, the
project settings module `../project.config`, and the Node functions
`path.resolve` and `__dirname`.
-/

set_option autoImplicit false

namespace ApiConfig

/-- What a property read `obj[key]` on an object literal can produce: the value
stored under an own key, a member inherited from `Object.prototype`, or
`undefined`. -/
inductive Value (α : Type) where
  | undefined
  | own (v : α)
  | inherited (key : String)
  deriving DecidableEq, Repr

/-- The property names of `Object.prototype`. An object literal has
`Object.prototype` as its prototype, so a read of one of these names on it
finds the inherited member when the literal has no own key of that name. -/
def objectPrototypeKeys : List String :=
  ["constructor", "__defineGetter__", "__defineSetter__", "hasOwnProperty",
   "__lookupGetter__", "__lookupSetter__", "isPrototypeOf", "propertyIsEnumerable",
   "toString", "valueOf", "__proto__", "toLocaleString"]

/-- The read `obj[key]` on an object literal with the own properties `obj`:
own keys first, then the prototype, otherwise `undefined`. A property read on
an object never throws, so there is no error result. -/
def getProperty {α : Type} (obj : List (String × α)) (key : String) : Value α :=
  match obj.lookup key with
  | some v => Value.own v
  | none => if key ∈ objectPrototypeKeys then Value.inherited key else Value.undefined

/-- `const env = process.env.NODE_ENV || 'development'`. An environment variable
is a string or absent; the absent value and the empty string are falsy. -/
def env (NODE_ENV : Option String) : String :=
  match NODE_ENV with
  | none => "development"
  | some s => if s = "" then "development" else s

/-- The object literal `apiConfig`, with the two keys in source order. -/
def apiConfig {α : Type} (devConfig prodConfig : α) : List (String × α) :=
  [("development", devConfig), ("production", prodConfig)]

/-- `module.exports = apiConfig[env]`, as a function of the two required
modules and of `NODE_ENV`. -/
def moduleExports {α : Type} (devConfig prodConfig : α) (NODE_ENV : Option String) : Value α :=
  getProperty (apiConfig devConfig prodConfig) (env NODE_ENV)

end ApiConfig

namespace Webpack

/-- A JavaScript primitive value, as far as `project.env` can be one. -/
inductive JSVal where
  | undefined
  | null
  | bool (b : Bool)
  | num (n : Int)
  | str (s : String)
  deriving DecidableEq, Repr

/-- The comparison `v === 'literal'` against a string literal: true exactly for
the string with the same contents. -/
def JSVal.strictEq (v : JSVal) (literal : String) : Bool :=
  match v with
  | JSVal.str s => s == literal
  | _ => false

/-- The Node environment the file runs in: `path.resolve` and `__dirname`. -/
structure Node where
  resolve : List String → String
  dirname : String

/-- A leaf of the object handed to `DefinePlugin`. `jsonStringify v` stands for
the call `JSON.stringify(v)`. -/
inductive DefineLeaf where
  | flag (b : Bool)
  | code (src : String)
  | jsonStringify (v : JSVal)
  deriving DecidableEq, Repr

/-- A value of the object handed to `DefinePlugin`. -/
inductive DefineVal where
  | leaf (l : DefineLeaf)
  | object (fields : List (String × DefineLeaf))
  deriving DecidableEq, Repr

/-- The fields of `../project.config` that the file reads. `vendors` is `none`
when the field is missing. -/
structure Project where
  env : JSVal
  basePath : String
  srcDir : String
  main : String
  outDir : String
  publicPath : String
  externals : List (String × String)
  globals : List (String × DefineVal)
  sourcemaps : Bool
  vendors : Option (List String)
  deriving DecidableEq, Repr

/-- The plugin instances the file creates, each with its constructor arguments. -/
inductive Plugin where
  | DefinePlugin (definitions : List (String × DefineVal))
  | MiniCssExtractPlugin (filename chunkFilename : String)
  | HtmlWebpackPlugin (template : String) (inject : Bool) (minifyCollapseWhitespace : Bool)
  | HotModuleReplacementPlugin
  | LoaderOptionsPlugin (minimize debug : Bool)
  | UglifyJsPlugin (cache parallel sourceMap : Bool)
  | OptimizeCSSPlugin
  deriving DecidableEq, Repr

/-- The `loader` of a `use` entry: a loader name, or the value
`MiniCssExtractPlugin.loader` exported by the plugin library. -/
inductive LoaderRef where
  | named (name : String)
  | miniCssExtractLoader
  deriving DecidableEq, Repr

/-- An option value of a babel plugin or preset. -/
inductive BabelOpt where
  | bool (b : Bool)
  | object (fields : List (String × Bool))
  deriving DecidableEq, Repr

/-- A babel plugin or preset: a bare name, or a name with an options object. -/
structure BabelItem where
  name : String
  options : Option (List (String × BabelOpt))
  deriving DecidableEq, Repr

/-- The `minimize` object of the css-loader options. -/
structure CssMinimize where
  autoprefixerAdd : Bool
  autoprefixerRemove : Bool
  autoprefixerBrowsers : List String
  discardCommentsRemoveAll : Bool
  discardUnused : Bool
  mergeIdents : Bool
  reduceIdents : Bool
  safe : Bool
  sourcemap : Bool
  deriving DecidableEq, Repr

/-- The options object of a loader (`query` for babel-loader, `options` for the
others); `none` when the source gives none. -/
inductive LoaderOptions where
  | none
  | babel (cacheDirectory : Bool) (plugins presets : List BabelItem)
  | css (sourceMap : Bool) (minimize : CssMinimize)
  | sass (sourceMap : Bool) (includePaths : List String)
  | url (name : Option String) (limit : Nat) (mimetype : Option String)
  deriving DecidableEq, Repr

/-- One element of a rule's `use` array. -/
structure UseEntry where
  loader : LoaderRef
  options : LoaderOptions
  deriving DecidableEq, Repr

/-- One element of `config.module.rules`. `test` and `exclude` hold the source
text of the regular expression; `use` is empty and `loader` is `none` when the
source does not set them. -/
structure Rule where
  test : String
  exclude : Option String
  use : List UseEntry
  loader : Option String
  options : LoaderOptions
  deriving DecidableEq, Repr

/-- The object `config.entry`; `vendor` is `none` while the key is not set. -/
structure Entry where
  normalize : List String
  main : List String
  vendor : Option (List String)
  deriving DecidableEq, Repr

/-- The keys of `config.entry`, in insertion order. -/
def Entry.keys (e : Entry) : List String :=
  ["normalize", "main"] ++ (if e.vendor.isSome then ["vendor"] else [])

/-- The object `config.output`. -/
structure Output where
  path : String
  filename : String
  publicPath : String
  deriving DecidableEq, Repr

/-- The object `config.resolve`; `aliases` is its key `alias`. -/
structure Resolve where
  modules : List String
  aliases : List (String × String)
  extensions : List String
  deriving DecidableEq, Repr

/-- The object `config.module`. -/
structure Module where
  rules : List Rule
  deriving DecidableEq, Repr

/-- One entry of `splitChunks.cacheGroups`. -/
structure CacheGroup where
  test : String
  name : String
  chunks : String
  deriving DecidableEq, Repr

/-- The object `config.optimization.splitChunks`. -/
structure SplitChunks where
  chunks : String
  minSize : Nat
  maxAsyncRequests : Nat
  maxInitialRequests : Nat
  name : Bool
  cacheGroups : List (String × CacheGroup)
  deriving DecidableEq, Repr

/-- The object `config.optimization`. -/
structure Optimization where
  minimizer : List Plugin
  runtimeChunkName : String
  splitChunks : SplitChunks
  deriving DecidableEq, Repr

/-- The exported object `config`. `devtool` is `none` for `false`;
`optimization` is `none` while the field is not set. -/
structure Config where
  entry : Entry
  mode : String
  devtool : Option String
  output : Output
  resolve : Resolve
  externals : List (String × String)
  module : Module
  plugins : List Plugin
  optimization : Option Optimization
  deriving DecidableEq, Repr

/-- The assignment `obj[key] = value` on an object kept as an ordered key-value
list: an existing key keeps its place, a new key goes last. -/
def setProperty {β : Type} (obj : List (String × β)) (key : String) (value : β) :
    List (String × β) :=
  if obj.any (fun kv => kv.1 == key) then
    obj.map (fun kv => if kv.1 == key then (kv.1, value) else kv)
  else
    obj ++ [(key, value)]

/-- `Object.assign(target, source)`: every property of `source`, in order, is
assigned on `target`. -/
def objectAssign {β : Type} (target source : List (String × β)) : List (String × β) :=
  source.foldl (fun acc kv => setProperty acc kv.1 kv.2) target

/-- `const inProject = path.resolve.bind(path, project.basePath)`. -/
def inProject (node : Node) (project : Project) (segments : List String) : String :=
  node.resolve (project.basePath :: segments)

/-- `const inProjectSrc = (file) => inProject(project.srcDir, file)`. -/
def inProjectSrc (node : Node) (project : Project) (file : String) : String :=
  inProject node project [project.srcDir, file]

/-- `const __DEV__ = project.env === 'development'`. -/
def __DEV__ (project : Project) : Bool := project.env.strictEq "development"

/-- `const __TEST__ = project.env === 'test'`. -/
def __TEST__ (project : Project) : Bool := project.env.strictEq "test"

/-- `const __PROD__ = project.env === 'production'`. -/
def __PROD__ (project : Project) : Bool := project.env.strictEq "production"

/-- The argument of `new webpack.DefinePlugin(...)`: the literal with
`process.env` and the three flags, overridden by `project.globals`. -/
def definitions (project : Project) : List (String × DefineVal) :=
  objectAssign
    [("process.env", DefineVal.object [("NODE_ENV", DefineLeaf.jsonStringify project.env)]),
     ("__DEV__", DefineVal.leaf (DefineLeaf.flag (__DEV__ project))),
     ("__TEST__", DefineVal.leaf (DefineLeaf.flag (__TEST__ project))),
     ("__PROD__", DefineVal.leaf (DefineLeaf.flag (__PROD__ project)))]
    project.globals

/-- The object literal `const config = { ... }` of lines 17 to 62. -/
def initialConfig (node : Node) (project : Project) : Config :=
  { entry :=
      { normalize := [inProjectSrc node project "normalize"]
        main := [inProjectSrc node project project.main]
        vendor := none }
    mode := if __DEV__ project then "development" else "production"
    devtool := if project.sourcemaps then some "source-map" else none
    output :=
      { path := inProject node project [project.outDir]
        filename := if __DEV__ project then "[name].js" else "[name].[chunkhash].js"
        publicPath := project.publicPath }
    resolve :=
      { modules := [inProject node project [project.srcDir], "node_modules"]
        aliases :=
          [("cms", node.resolve [node.dirname, "../src/components/"]),
           ("ctns", node.resolve [node.dirname, "../src/containers/"]),
           ("assets", node.resolve [node.dirname, "../src/assets/"]),
           ("store", node.resolve [node.dirname, "../src/store/"]),
           ("cfg", node.resolve [node.dirname, "../config/"]),
           ("api", node.resolve [node.dirname, "../config/apiConfig"]),
           ("utils", node.resolve [node.dirname, "../src/utils/"]),
           ("styles", node.resolve [node.dirname, "../src/styles/"])]
        extensions := ["*", ".js", ".jsx", ".json"] }
    externals := project.externals
    module := { rules := [] }
    plugins := [Plugin.DefinePlugin (definitions project)]
    optimization := none }

/-- `config.module.rules.push(rule)`. -/
def pushRule (config : Config) (rule : Rule) : Config :=
  { config with module := { rules := config.module.rules ++ [rule] } }

/-- `config.plugins.push(plugin, ...)`. -/
def pushPlugins (config : Config) (plugins : List Plugin) : Config :=
  { config with plugins := config.plugins ++ plugins }

/-- The rule pushed under the heading "JavaScript". -/
def javaScriptRule : Rule :=
  { test := "\\.(js|jsx)$"
    exclude := some "node_modules"
    use :=
      [{ loader := LoaderRef.named "babel-loader"
         options :=
           LoaderOptions.babel true
             [{ name := "babel-plugin-transform-class-properties", options := none },
              { name := "babel-plugin-syntax-dynamic-import", options := none },
              { name := "babel-plugin-transform-runtime"
                options := some [("helpers", BabelOpt.bool true),
                                 ("polyfill", BabelOpt.bool false),
                                 ("regenerator", BabelOpt.bool true)] },
              { name := "babel-plugin-transform-object-rest-spread"
                options := some [("useBuiltIns", BabelOpt.bool true)] }]
             [{ name := "babel-preset-react", options := none },
              { name := "babel-preset-env"
                options := some [("modules", BabelOpt.bool false),
                                 ("targets", BabelOpt.object [("ie9", true)]),
                                 ("uglify", BabelOpt.bool true)] }] }]
    loader := none
    options := LoaderOptions.none }

/-- `const extractStyles = new MiniCssExtractPlugin({ ... })`. -/
def extractStyles (project : Project) : Plugin :=
  Plugin.MiniCssExtractPlugin
    (if __DEV__ project then "[name].css" else "styles/[name].[contenthash].css")
    (if __DEV__ project then "[id].css" else "styles/[id].[contenthash].css")

/-- The rule pushed under the heading "Styles". -/
def stylesRule (node : Node) (project : Project) : Rule :=
  { test := "\\.(sass|scss)$"
    exclude := none
    use :=
      [{ loader :=
           if __DEV__ project then LoaderRef.named "style-loader"
           else LoaderRef.miniCssExtractLoader
         options := LoaderOptions.none },
       { loader := LoaderRef.named "css-loader"
         options :=
           LoaderOptions.css project.sourcemaps
             { autoprefixerAdd := true
               autoprefixerRemove := true
               autoprefixerBrowsers := ["last 2 versions"]
               discardCommentsRemoveAll := true
               discardUnused := false
               mergeIdents := false
               reduceIdents := false
               safe := true
               sourcemap := project.sourcemaps } },
       { loader := LoaderRef.named "sass-loader"
         options :=
           LoaderOptions.sass project.sourcemaps [inProjectSrc node project "styles"] }]
    loader := none
    options := LoaderOptions.none }

/-- The rule pushed under the heading "Images". -/
def imagesRule : Rule :=
  { test := "\\.(png|jpg|gif)$"
    exclude := none
    use := []
    loader := some "url-loader"
    options := LoaderOptions.url none 8192 none }

/-- The array of extension and mimetype pairs under the heading "Fonts". -/
def fonts : List (String × String) :=
  [("woff", "application/font-woff"),
   ("woff2", "application/font-woff2"),
   ("otf", "font/opentype"),
   ("ttf", "application/octet-stream"),
   ("eot", "application/vnd.ms-fontobject"),
   ("svg", "image/svg+xml")]

/-- The rule the `forEach` callback pushes for one font. -/
def fontRule (font : String × String) : Rule :=
  let extension := font.1
  let mimetype := font.2
  { test := "\\." ++ extension ++ "$"
    exclude := none
    use := []
    loader := some "url-loader"
    options := LoaderOptions.url (some "fonts/[name].[ext]") 10000 (some mimetype) }

/-- The plugin pushed under the heading "HTML Template". -/
def htmlTemplate (node : Node) (project : Project) : Plugin :=
  Plugin.HtmlWebpackPlugin (inProjectSrc node project "index.html") true true

/-- The block `if (__DEV__) { ... }` under the heading "Development Tools". -/
def developmentTools (project : Project) (config : Config) : Config :=
  if __DEV__ project then
    let config :=
      { config with
        entry :=
          { config.entry with
            main := config.entry.main ++
              ["webpack-hot-middleware/client.js?path=" ++ config.output.publicPath
                ++ "__webpack_hmr"] } }
    pushPlugins config [Plugin.HotModuleReplacementPlugin]
  else
    config

/-- The object assigned to `config.optimization`. -/
def optimization : Optimization :=
  { minimizer := [Plugin.UglifyJsPlugin true true false, Plugin.OptimizeCSSPlugin]
    runtimeChunkName := "bundles"
    splitChunks :=
      { chunks := "async"
        minSize := 30000
        maxAsyncRequests := 5
        maxInitialRequests := 3
        name := true
        cacheGroups :=
          [("commons", { test := "[\\\\/]node_modules[\\\\/]", name := "vendor", chunks := "all" })] } }

/-- The truth value of `project.vendors && project.vendors.length`: the field is
present and the array is not empty. -/
def hasVendors (project : Project) : Bool :=
  match project.vendors with
  | none => false
  | some vendors => vendors.length != 0

/-- The block `if (!__TEST__) { ... }` under the heading "Bundle Splitting".
The local array `bundles` is written and never read, so it leaves no trace in
`config`. -/
def bundleSplitting (project : Project) (config : Config) : Config :=
  if !__TEST__ project then
    let config :=
      if hasVendors project then
        { config with entry := { config.entry with vendor := project.vendors } }
      else
        config
    { config with optimization := some optimization }
  else
    config

/-- The block `if (__PROD__) { ... }` under the heading "Production
Optimizations". -/
def productionOptimizations (project : Project) (config : Config) : Config :=
  if __PROD__ project then
    pushPlugins config [Plugin.LoaderOptionsPlugin true false]
  else
    config

/-- The exported object: the statements of the file, in source order. -/
def config (node : Node) (project : Project) : Config :=
  let config := initialConfig node project
  let config := pushRule config javaScriptRule
  let config := pushRule config (stylesRule node project)
  let config := pushPlugins config [extractStyles project]
  let config := pushRule config imagesRule
  let config := fonts.foldl (fun config font => pushRule config (fontRule font)) config
  let config := pushPlugins config [htmlTemplate node project]
  let config := developmentTools project config
  let config := bundleSplitting project config
  productionOptimizations project config

/-- The class name of a plugin instance. -/
def Plugin.className : Plugin → String
  | Plugin.DefinePlugin _ => "DefinePlugin"
  | Plugin.MiniCssExtractPlugin _ _ => "MiniCssExtractPlugin"
  | Plugin.HtmlWebpackPlugin _ _ _ => "HtmlWebpackPlugin"
  | Plugin.HotModuleReplacementPlugin => "HotModuleReplacementPlugin"
  | Plugin.LoaderOptionsPlugin _ _ => "LoaderOptionsPlugin"
  | Plugin.UglifyJsPlugin _ _ _ => "UglifyJsPlugin"
  | Plugin.OptimizeCSSPlugin => "OptimizeCSSPlugin"

/-- The hash placeholders of a webpack filename pattern. -/
def hashPlaceholders : List String := ["[hash]", "[chunkhash]", "[contenthash]"]

/-- Whether a filename pattern contains a hash placeholder. -/
def hasHashPlaceholder (pattern : String) : Bool :=
  hashPlaceholders.any (fun h => decide (h.toList <:+: pattern.toList))

/-- Whether `config.optimization.splitChunks.cacheGroups` has a group whose
chunk name is "vendor". -/
def hasVendorCacheGroup (config : Config) : Bool :=
  match config.optimization with
  | none => false
  | some o => o.splitChunks.cacheGroups.any (fun group => group.2.name == "vendor")

/-- The three environment flags, in source order. -/
def flags (project : Project) : List Bool :=
  [__DEV__ project, __TEST__ project, __PROD__ project]

/-- A concrete Node environment: `path.resolve` joins its arguments under the
root directory. -/
def sampleNode : Node :=
  { resolve := fun segments => "/" ++ "/".intercalate segments
    dirname := "app/build" }

/-- A concrete project settings object with the given environment name and
vendor list. -/
def sampleProject (env : JSVal) (vendors : Option (List String)) : Project :=
  { env := env
    basePath := "app"
    srcDir := "src"
    main := "main"
    outDir := "dist"
    publicPath := "/"
    externals := []
    globals := []
    sourcemaps := true
    vendors := vendors }

end Webpack

/-! ## Shared lemmas -/

namespace Webpack

theorem strictEq_eq_true_iff (v : JSVal) (literal : String) :
    v.strictEq literal = true ↔ v = JSVal.str literal := by
  cases v <;> simp [JSVal.strictEq]

theorem strictEq_eq_false_iff (v : JSVal) (literal : String) :
    v.strictEq literal = false ↔ v ≠ JSVal.str literal := by
  cases v <;> simp [JSVal.strictEq]

theorem dev_iff (project : Project) :
    __DEV__ project = true ↔ project.env = JSVal.str "development" :=
  strictEq_eq_true_iff _ _

theorem test_iff (project : Project) :
    __TEST__ project = true ↔ project.env = JSVal.str "test" :=
  strictEq_eq_true_iff _ _

theorem prod_iff (project : Project) :
    __PROD__ project = true ↔ project.env = JSVal.str "production" :=
  strictEq_eq_true_iff _ _

theorem config_entry_normalize (node : Node) (project : Project) :
    (config node project).entry.normalize = [inProjectSrc node project "normalize"] := by
  unfold config productionOptimizations bundleSplitting developmentTools
  split_ifs <;> rfl

theorem config_entry_main (node : Node) (project : Project) :
    (config node project).entry.main =
      inProjectSrc node project project.main ::
        (if __DEV__ project then
          ["webpack-hot-middleware/client.js?path=" ++ project.publicPath ++ "__webpack_hmr"]
         else []) := by
  unfold config productionOptimizations bundleSplitting developmentTools
  split_ifs <;> rfl

theorem config_entry_vendor (node : Node) (project : Project) :
    (config node project).entry.vendor =
      if __TEST__ project = false ∧ hasVendors project = true then project.vendors else none := by
  unfold config productionOptimizations bundleSplitting developmentTools
  split_ifs <;> simp_all <;> rfl

theorem config_output (node : Node) (project : Project) :
    (config node project).output = (initialConfig node project).output := by
  unfold config productionOptimizations bundleSplitting developmentTools
  split_ifs <;> rfl

theorem config_mode (node : Node) (project : Project) :
    (config node project).mode = (initialConfig node project).mode := by
  unfold config productionOptimizations bundleSplitting developmentTools
  split_ifs <;> rfl

theorem config_plugins (node : Node) (project : Project) :
    (config node project).plugins =
      [Plugin.DefinePlugin (definitions project), extractStyles project,
        htmlTemplate node project]
      ++ (if __DEV__ project then [Plugin.HotModuleReplacementPlugin] else [])
      ++ (if __PROD__ project then [Plugin.LoaderOptionsPlugin true false] else []) := by
  unfold config productionOptimizations bundleSplitting developmentTools
  split_ifs <;> rfl

theorem config_rules (node : Node) (project : Project) :
    (config node project).module.rules =
      [javaScriptRule, stylesRule node project, imagesRule] ++ fonts.map fontRule := by
  unfold config productionOptimizations bundleSplitting developmentTools
  split_ifs <;> rfl

theorem config_optimization (node : Node) (project : Project) :
    (config node project).optimization =
      if __TEST__ project then none else some optimization := by
  unfold config productionOptimizations bundleSplitting developmentTools
  split_ifs <;> simp_all <;> rfl

end Webpack

/-! ## The API config selector -/

namespace ApiConfig

/-- C1: as a function of the `NODE_ENV` value, the selector returns `devConfig`
for "development", `prodConfig` for "production", and `devConfig` when the
value is absent. -/
theorem moduleExports_known_env {α : Type} (devConfig prodConfig : α) :
    moduleExports devConfig prodConfig (some "development") = Value.own devConfig ∧
    moduleExports devConfig prodConfig (some "production") = Value.own prodConfig ∧
    moduleExports devConfig prodConfig none = Value.own devConfig := by
  refine ⟨?_, ?_, ?_⟩ <;> simp [moduleExports, env, apiConfig, getProperty, List.lookup]

/-- C2, as stated, fails: "constructor" is a non-empty string that is neither
"development" nor "production", and the selector returns the member inherited
from `Object.prototype` for it, not `undefined`. -/
theorem moduleExports_constructor_not_undefined :
    "constructor" ≠ "" ∧ "constructor" ≠ "development" ∧ "constructor" ≠ "production" ∧
    moduleExports "dev" "prod" (some "constructor") = Value.inherited "constructor" ∧
    moduleExports "dev" "prod" (some "constructor") ≠ Value.undefined := by
  refine ⟨by decide, by decide, by decide, ?_, ?_⟩ <;>
    simp [moduleExports, env, apiConfig, getProperty, List.lookup, objectPrototypeKeys]

/-- C2, amended: for every `NODE_ENV` value that is a non-empty string, is
neither "development" nor "production", and is not the name of a property of
`Object.prototype`, the selector returns `undefined`. The selector is a total
function, so no error is raised. -/
theorem moduleExports_unknown_env {α : Type} (devConfig prodConfig : α) (s : String)
    (hne : s ≠ "") (hdev : s ≠ "development") (hprod : s ≠ "production")
    (hproto : s ∉ objectPrototypeKeys) :
    moduleExports devConfig prodConfig (some s) = Value.undefined := by
  have h1 : ("development" == s) = false := by simpa using fun h => hdev h.symm
  have h2 : ("production" == s) = false := by simpa using fun h => hprod h.symm
  have h3 : (s == "development") = false := by simpa using hdev
  have h4 : (s == "production") = false := by simpa using hprod
  simp [moduleExports, env, apiConfig, getProperty, List.lookup, hne, h1, h2, h3, h4, hproto]

/-- Witness for C2, amended: "staging" and "test" are such values. -/
theorem moduleExports_unknown_env_witness :
    ("staging" ≠ "" ∧ "staging" ≠ "development" ∧ "staging" ≠ "production" ∧
      "staging" ∉ objectPrototypeKeys) ∧
    moduleExports "dev" "prod" (some "staging") = Value.undefined :=
  ⟨⟨by decide, by decide, by decide, by decide⟩,
    moduleExports_unknown_env "dev" "prod" "staging" (by decide) (by decide) (by decide)
      (by decide)⟩

end ApiConfig

/-! ## The webpack configuration -/

namespace Webpack

/-- C3: in development `config.entry.main` is the application entry followed by
the hot-reload client entry (two elements); in production and in test it is
the single application entry, so it holds the hot-reload client entry only if
the application entry itself is that string; `config.entry.normalize` is the
single entry `inProjectSrc('normalize')` in every environment. -/
theorem entry_main_by_env (node : Node) (project : Project) :
    (project.env = JSVal.str "development" →
      (config node project).entry.main =
        [inProjectSrc node project project.main,
         "webpack-hot-middleware/client.js?path=" ++ project.publicPath ++ "__webpack_hmr"] ∧
      (config node project).entry.main.length = 2) ∧
    (project.env = JSVal.str "production" ∨ project.env = JSVal.str "test" →
      (config node project).entry.main = [inProjectSrc node project project.main] ∧
      (config node project).entry.main.length = 1 ∧
      (inProjectSrc node project project.main ≠
          "webpack-hot-middleware/client.js?path=" ++ project.publicPath ++ "__webpack_hmr" →
        "webpack-hot-middleware/client.js?path=" ++ project.publicPath ++ "__webpack_hmr" ∉
          (config node project).entry.main)) ∧
    (config node project).entry.normalize = [inProjectSrc node project "normalize"] := by
  refine ⟨fun h => ?_, fun h => ?_, config_entry_normalize node project⟩
  · have hd : __DEV__ project = true := (dev_iff project).2 h
    simp [config_entry_main, hd]
  · have hd : __DEV__ project = false := by
      rw [__DEV__, strictEq_eq_false_iff]
      rcases h with h | h <;> rw [h] <;> decide
    simp only [config_entry_main, hd]
    refine ⟨by simp, by simp, fun hne => ?_⟩
    simpa using fun h => hne h.symm

/-- Witness for C3: the sample project in development, production and test. -/
theorem entry_main_by_env_witness :
    (config sampleNode (sampleProject (JSVal.str "development") none)).entry.main =
      ["/app/src/main", "webpack-hot-middleware/client.js?path=/__webpack_hmr"] ∧
    (config sampleNode (sampleProject (JSVal.str "production") none)).entry.main =
      ["/app/src/main"] ∧
    (config sampleNode (sampleProject (JSVal.str "test") none)).entry.main =
      ["/app/src/main"] :=
  ⟨((entry_main_by_env sampleNode (sampleProject (JSVal.str "development") none)).1 rfl).1,
   ((entry_main_by_env sampleNode (sampleProject (JSVal.str "production") none)).2.1
      (Or.inl rfl)).1,
   ((entry_main_by_env sampleNode (sampleProject (JSVal.str "test") none)).2.1
      (Or.inr rfl)).1⟩

/-- C4: with a non-empty vendors list and an env other than "test",
`config.entry.vendor` is set and equals `project.vendors`; with an empty or
missing vendors list, or with env "test", `config.entry` has no vendor key and
its keys are exactly normalize and main. -/
theorem entry_vendor_by_vendors (node : Node) (project : Project) :
    (∀ vendors : List String, project.vendors = some vendors → vendors ≠ [] →
      project.env ≠ JSVal.str "test" →
      (config node project).entry.vendor = some vendors ∧
      (config node project).entry.keys = ["normalize", "main", "vendor"]) ∧
    (project.vendors = none ∨ project.vendors = some [] ∨ project.env = JSVal.str "test" →
      (config node project).entry.vendor = none ∧
      (config node project).entry.keys = ["normalize", "main"]) := by
  refine ⟨fun vendors hv hne henv => ?_, fun h => ?_⟩
  · have ht : __TEST__ project = false := (strictEq_eq_false_iff _ _).2 henv
    have hh : hasVendors project = true := by
      simp [hasVendors, hv, hne]
    simp [Entry.keys, config_entry_vendor, ht, hh, hv]
  · have hv : (config node project).entry.vendor = none := by
      rw [config_entry_vendor]
      rcases h with h | h | h
      · simp [hasVendors, h]
      · simp [hasVendors, h]
      · simp [(test_iff project).2 h]
    simp [Entry.keys, hv]

/-- Witness for C4: the sample project in production with one vendor, with an
empty vendors list, and in test with one vendor. -/
theorem entry_vendor_by_vendors_witness :
    (config sampleNode (sampleProject (JSVal.str "production") (some ["react"]))).entry.vendor =
      some ["react"] ∧
    (config sampleNode (sampleProject (JSVal.str "production") (some []))).entry.vendor =
      none ∧
    (config sampleNode (sampleProject (JSVal.str "test") (some ["react"]))).entry.vendor =
      none :=
  ⟨((entry_vendor_by_vendors sampleNode
        (sampleProject (JSVal.str "production") (some ["react"]))).1
      ["react"] rfl (by decide) (by decide)).1,
   ((entry_vendor_by_vendors sampleNode
        (sampleProject (JSVal.str "production") (some []))).2 (Or.inr (Or.inl rfl))).1,
   ((entry_vendor_by_vendors sampleNode
        (sampleProject (JSVal.str "test") (some ["react"]))).2 (Or.inr (Or.inr rfl))).1⟩

/-- C5: `config.output.filename` is "[name].js" exactly when env is
"development" and "[name].[chunkhash].js" for every other env value, so it
contains a hash placeholder exactly outside development; `config.mode` is
"development" exactly when env is "development" and "production" otherwise. -/
theorem output_filename_by_env (node : Node) (project : Project) :
    ((config node project).output.filename = "[name].js" ↔
      project.env = JSVal.str "development") ∧
    (project.env ≠ JSVal.str "development" →
      (config node project).output.filename = "[name].[chunkhash].js") ∧
    (hasHashPlaceholder (config node project).output.filename = true ↔
      project.env ≠ JSVal.str "development") ∧
    ((config node project).mode = "development" ↔ project.env = JSVal.str "development") ∧
    (project.env ≠ JSVal.str "development" → (config node project).mode = "production") := by
  rw [config_output, config_mode]
  by_cases h : project.env = JSVal.str "development"
  · have hd : __DEV__ project = true := (dev_iff project).2 h
    simp only [initialConfig, hd, h]
    decide
  · have hd : __DEV__ project = false := (strictEq_eq_false_iff _ _).2 h
    simp only [initialConfig, hd, Bool.false_eq_true, if_false]
    exact ⟨⟨fun hf => absurd hf (by decide), fun hf => absurd hf h⟩, fun _ => trivial,
      ⟨fun _ => h, fun _ => by decide⟩,
      ⟨fun hf => absurd hf (by decide), fun hf => absurd hf h⟩, fun _ => trivial⟩

/-- Witness for C5: the sample project in production and in test. -/
theorem output_filename_by_env_witness :
    (config sampleNode (sampleProject (JSVal.str "production") none)).output.filename =
      "[name].[chunkhash].js" ∧
    (config sampleNode (sampleProject (JSVal.str "test") none)).mode = "production" :=
  ⟨(output_filename_by_env sampleNode (sampleProject (JSVal.str "production") none)).2.1
      (by decide),
   (output_filename_by_env sampleNode (sampleProject (JSVal.str "test") none)).2.2.2.2
      (by decide)⟩

/-- C6: `config.plugins` is, in order, the DefinePlugin, the
MiniCssExtractPlugin and the HtmlWebpackPlugin, followed by the
HotModuleReplacementPlugin exactly when env is "development", followed by the
LoaderOptionsPlugin exactly when env is "production"; so it has 3 elements in
test and 4 in development and in production, and it holds the
HotModuleReplacementPlugin if and only if env is "development". -/
theorem plugins_by_env (node : Node) (project : Project) :
    (config node project).plugins =
      [Plugin.DefinePlugin (definitions project), extractStyles project,
        htmlTemplate node project]
      ++ (if project.env = JSVal.str "development" then [Plugin.HotModuleReplacementPlugin]
          else [])
      ++ (if project.env = JSVal.str "production" then [Plugin.LoaderOptionsPlugin true false]
          else []) ∧
    (config node project).plugins.map Plugin.className =
      ["DefinePlugin", "MiniCssExtractPlugin", "HtmlWebpackPlugin"]
      ++ (if project.env = JSVal.str "development" then ["HotModuleReplacementPlugin"] else [])
      ++ (if project.env = JSVal.str "production" then ["LoaderOptionsPlugin"] else []) ∧
    (config node project).plugins.head? = some (Plugin.DefinePlugin (definitions project)) ∧
    htmlTemplate node project ∈ (config node project).plugins ∧
    (Plugin.HotModuleReplacementPlugin ∈ (config node project).plugins ↔
      project.env = JSVal.str "development") ∧
    (project.env = JSVal.str "test" → (config node project).plugins.length = 3) ∧
    (project.env = JSVal.str "development" → (config node project).plugins.length = 4) ∧
    (project.env = JSVal.str "production" → (config node project).plugins.length = 4) := by
  have hlist : (config node project).plugins =
      [Plugin.DefinePlugin (definitions project), extractStyles project,
        htmlTemplate node project]
      ++ (if project.env = JSVal.str "development" then [Plugin.HotModuleReplacementPlugin]
          else [])
      ++ (if project.env = JSVal.str "production" then [Plugin.LoaderOptionsPlugin true false]
          else []) := by
    rw [config_plugins]
    simp only [dev_iff, prod_iff]
  rw [hlist]
  refine ⟨rfl, ?_, rfl, by simp, ?_, ?_, ?_, ?_⟩
  · by_cases hd : project.env = JSVal.str "development" <;>
      by_cases hp : project.env = JSVal.str "production" <;>
      simp [hd, hp, Plugin.className, extractStyles, htmlTemplate]
  · by_cases hd : project.env = JSVal.str "development" <;>
      by_cases hp : project.env = JSVal.str "production" <;>
      simp [hd, hp, extractStyles, htmlTemplate]
  · intro h; simp [h]
  · intro h; simp [h]
  · intro h; simp [h]

/-- Witness for C6: the plugin class names of the sample project in test, in
development and in production. -/
theorem plugins_by_env_witness :
    (config sampleNode (sampleProject (JSVal.str "test") none)).plugins.length = 3 ∧
    (config sampleNode (sampleProject (JSVal.str "development") none)).plugins.length = 4 ∧
    (config sampleNode (sampleProject (JSVal.str "production") none)).plugins.length = 4 :=
  ⟨(plugins_by_env sampleNode (sampleProject (JSVal.str "test") none)).2.2.2.2.2.1 rfl,
   (plugins_by_env sampleNode (sampleProject (JSVal.str "development") none)).2.2.2.2.2.2.1 rfl,
   (plugins_by_env sampleNode (sampleProject (JSVal.str "production") none)).2.2.2.2.2.2.2 rfl⟩

/-- C7, as stated, fails in its last sentence: the sample project in production
has no vendors list, and `config.optimization.splitChunks.cacheGroups` holds
the group named "vendor" all the same. -/
theorem vendor_cache_group_without_vendors :
    (sampleProject (JSVal.str "production") none).vendors = none ∧
    hasVendors (sampleProject (JSVal.str "production") none) = false ∧
    (config sampleNode (sampleProject (JSVal.str "production") none)).optimization =
      some optimization ∧
    optimization.splitChunks.cacheGroups =
      [("commons", { test := "[\\\\/]node_modules[\\\\/]", name := "vendor", chunks := "all" })] ∧
    hasVendorCacheGroup (config sampleNode (sampleProject (JSVal.str "production") none)) =
      true := by
  decide

/-- C7, amended: for every env other than "test", `config.optimization` is set,
with the minimizer list UglifyJsPlugin, OptimizeCSSPlugin and with splitChunks
having chunks "async", minSize 30000, maxAsyncRequests 5, maxInitialRequests 3
and the cache group named "vendor"; for env "test" `config` has no optimization
field. The "vendor" cache group is present exactly when env is not "test",
whatever the vendors list is. -/
theorem optimization_by_env (node : Node) (project : Project) :
    (project.env ≠ JSVal.str "test" →
      (config node project).optimization = some optimization) ∧
    (project.env = JSVal.str "test" → (config node project).optimization = none) ∧
    optimization.minimizer = [Plugin.UglifyJsPlugin true true false, Plugin.OptimizeCSSPlugin] ∧
    optimization.minimizer.map Plugin.className = ["UglifyJsPlugin", "OptimizeCSSPlugin"] ∧
    optimization.splitChunks.chunks = "async" ∧
    optimization.splitChunks.minSize = 30000 ∧
    optimization.splitChunks.maxAsyncRequests = 5 ∧
    optimization.splitChunks.maxInitialRequests = 3 ∧
    optimization.splitChunks.cacheGroups.map (fun group => group.2.name) = ["vendor"] ∧
    (hasVendorCacheGroup (config node project) = true ↔ project.env ≠ JSVal.str "test") := by
  refine ⟨fun h => ?_, fun h => ?_, rfl, rfl, rfl, rfl, rfl, rfl, rfl, ?_⟩
  · have ht : __TEST__ project = false := (strictEq_eq_false_iff _ _).2 h
    rw [config_optimization, ht]; rfl
  · rw [config_optimization, (test_iff project).2 h]; rfl
  · by_cases h : project.env = JSVal.str "test"
    · simp [hasVendorCacheGroup, config_optimization, (test_iff project).2 h, h]
    · have ht : __TEST__ project = false := (strictEq_eq_false_iff _ _).2 h
      simp [hasVendorCacheGroup, config_optimization, ht, h, optimization]

/-- Witness for C7, amended: the sample project in production, with and
without vendors, and in test. -/
theorem optimization_by_env_witness :
    (config sampleNode (sampleProject (JSVal.str "production") none)).optimization =
      some optimization ∧
    (config sampleNode (sampleProject (JSVal.str "production") (some ["react"]))).optimization =
      some optimization ∧
    (config sampleNode (sampleProject (JSVal.str "test") (some ["react"]))).optimization =
      none :=
  ⟨(optimization_by_env sampleNode (sampleProject (JSVal.str "production") none)).1
      (by decide),
   (optimization_by_env sampleNode
      (sampleProject (JSVal.str "production") (some ["react"]))).1 (by decide),
   (optimization_by_env sampleNode
      (sampleProject (JSVal.str "test") (some ["react"]))).2.1 rfl⟩

theorem xor_of_branch (b : Bool) (A B : Prop) (hA : b = true → A) (hB : b = false → B) :
    Xor' (b = true ∧ A) (b = false ∧ B) := by
  cases b
  · simp [Xor', hB]
  · simp [Xor', hA]

theorem flags_count_le_one (project : Project) : (flags project).count true ≤ 1 := by
  unfold flags __DEV__ __TEST__ __PROD__
  cases h : project.env <;> simp [JSVal.strictEq, List.count_cons]
  rename_i s
  by_cases h1 : s = "development"
  · subst h1; decide
  · by_cases h2 : s = "test"
    · subst h2; decide
    · simp [h1, h2]; split <;> simp

/-- C8: the stylesheet rule, second in `config.module.rules`, matches
.sass/.scss; its loaders are, in order, the first loader, css-loader and
sass-loader, where the first loader is "style-loader" exactly when env is
"development" and `MiniCssExtractPlugin.loader` otherwise; the extract plugin,
second in `config.plugins`, has filename and chunkFilename "[name].css" and
"[id].css" in development and "styles/[name].[contenthash].css" and
"styles/[id].[contenthash].css" otherwise; the loaders after the first are the
same for every env. -/
theorem styles_by_env (node : Node) (project : Project) :
    (config node project).module.rules[1]? = some (stylesRule node project) ∧
    (stylesRule node project).test = "\\.(sass|scss)$" ∧
    (stylesRule node project).use.map (fun entry => entry.loader) =
      [if project.env = JSVal.str "development" then LoaderRef.named "style-loader"
       else LoaderRef.miniCssExtractLoader,
       LoaderRef.named "css-loader", LoaderRef.named "sass-loader"] ∧
    ((stylesRule node project).use.head?.map (fun entry => entry.loader) =
        some (LoaderRef.named "style-loader") ↔
      project.env = JSVal.str "development") ∧
    (config node project).plugins[1]? = some (extractStyles project) ∧
    extractStyles project =
      (if project.env = JSVal.str "development" then
        Plugin.MiniCssExtractPlugin "[name].css" "[id].css"
       else
        Plugin.MiniCssExtractPlugin "styles/[name].[contenthash].css"
          "styles/[id].[contenthash].css") ∧
    (∀ env : JSVal,
      (stylesRule node { project with env := env }).use.tail =
        (stylesRule node project).use.tail) := by
  refine ⟨by rw [config_rules]; rfl, rfl, ?_, ?_, by rw [config_plugins]; rfl, ?_,
    fun env => rfl⟩
  · by_cases h : project.env = JSVal.str "development"
    · simp [stylesRule, (dev_iff project).2 h, h]
    · simp [stylesRule, (strictEq_eq_false_iff _ _).2 h, h, __DEV__]
  · by_cases h : project.env = JSVal.str "development"
    · simp [stylesRule, (dev_iff project).2 h, h]
    · simp [stylesRule, (strictEq_eq_false_iff _ _).2 h, h, __DEV__]
  · by_cases h : project.env = JSVal.str "development"
    · simp [extractStyles, (dev_iff project).2 h, h]
    · simp [extractStyles, (strictEq_eq_false_iff _ _).2 h, h, __DEV__]

/-- C9: for every value of `project.env` at most one of the flags `__DEV__`,
`__TEST__`, `__PROD__` is true; exactly one is true when env is one of
"development", "test", "production"; and each flag-guarded conditional of the
config (mode, filename, style loader, development tools block, bundle
splitting block, production block) takes exactly one of its two branches, the
one its flag selects. -/
theorem flags_exclusive (node : Node) (project : Project) :
    (flags project).count true ≤ 1 ∧
    ¬ (__DEV__ project = true ∧ __TEST__ project = true) ∧
    ¬ (__DEV__ project = true ∧ __PROD__ project = true) ∧
    ¬ (__TEST__ project = true ∧ __PROD__ project = true) ∧
    (project.env = JSVal.str "development" ∨ project.env = JSVal.str "test" ∨
        project.env = JSVal.str "production" →
      (flags project).count true = 1) ∧
    Xor' (__DEV__ project = true ∧ (config node project).mode = "development")
      (__DEV__ project = false ∧ (config node project).mode = "production") ∧
    Xor' (__DEV__ project = true ∧ (config node project).output.filename = "[name].js")
      (__DEV__ project = false ∧
        (config node project).output.filename = "[name].[chunkhash].js") ∧
    Xor' (__DEV__ project = true ∧
        (stylesRule node project).use.head?.map (fun entry => entry.loader) =
          some (LoaderRef.named "style-loader"))
      (__DEV__ project = false ∧
        (stylesRule node project).use.head?.map (fun entry => entry.loader) =
          some LoaderRef.miniCssExtractLoader) ∧
    Xor' (__DEV__ project = true ∧ (config node project).entry.main.length = 2 ∧
        Plugin.HotModuleReplacementPlugin ∈ (config node project).plugins)
      (__DEV__ project = false ∧ (config node project).entry.main.length = 1 ∧
        Plugin.HotModuleReplacementPlugin ∉ (config node project).plugins) ∧
    Xor' (__TEST__ project = false ∧ (config node project).optimization = some optimization)
      (__TEST__ project = true ∧ (config node project).optimization = none ∧
        (config node project).entry.vendor = none) ∧
    Xor' (__PROD__ project = true ∧
        Plugin.LoaderOptionsPlugin true false ∈ (config node project).plugins)
      (__PROD__ project = false ∧
        Plugin.LoaderOptionsPlugin true false ∉ (config node project).plugins) := by
  have hdt : ¬ (__DEV__ project = true ∧ __TEST__ project = true) := by
    rintro ⟨h1, h2⟩
    rw [dev_iff] at h1; rw [test_iff, h1] at h2
    exact absurd h2 (by decide)
  have hdp : ¬ (__DEV__ project = true ∧ __PROD__ project = true) := by
    rintro ⟨h1, h2⟩
    rw [dev_iff] at h1; rw [prod_iff, h1] at h2
    exact absurd h2 (by decide)
  have htp : ¬ (__TEST__ project = true ∧ __PROD__ project = true) := by
    rintro ⟨h1, h2⟩
    rw [test_iff] at h1; rw [prod_iff, h1] at h2
    exact absurd h2 (by decide)
  refine ⟨flags_count_le_one project, hdt, hdp, htp, ?_, ?_, ?_, ?_, ?_, ?_, ?_⟩
  · intro h
    unfold flags __DEV__ __TEST__ __PROD__
    rcases h with h | h | h <;> rw [h] <;> decide
  · apply xor_of_branch <;> intro h <;> simp [config_mode, initialConfig, h]
  · apply xor_of_branch <;> intro h <;> simp [config_output, initialConfig, h]
  · apply xor_of_branch <;> intro h <;> simp [stylesRule, h]
  · apply xor_of_branch <;> intro h <;>
      simp [config_entry_main, config_plugins, extractStyles, htmlTemplate, h]
  · have := xor_of_branch (!__TEST__ project)
      ((config node project).optimization = some optimization)
      ((config node project).optimization = none ∧ (config node project).entry.vendor = none)
      (fun h => by simp at h; simp [config_optimization, h])
      (fun h => by simp at h; simp [config_optimization, config_entry_vendor, h])
    simpa using this
  · apply xor_of_branch <;> intro h <;>
      simp [config_plugins, extractStyles, htmlTemplate, h]

/-- Witness for C9: the flags of the sample project for each of the three
environment names. -/
theorem flags_exclusive_witness :
    (flags (sampleProject (JSVal.str "development") none)).count true = 1 ∧
    (flags (sampleProject (JSVal.str "test") none)).count true = 1 ∧
    (flags (sampleProject (JSVal.str "production") none)).count true = 1 :=
  ⟨(flags_exclusive sampleNode (sampleProject (JSVal.str "development") none)).2.2.2.2.1
      (Or.inl rfl),
   (flags_exclusive sampleNode (sampleProject (JSVal.str "test") none)).2.2.2.2.1
      (Or.inr (Or.inl rfl)),
   (flags_exclusive sampleNode (sampleProject (JSVal.str "production") none)).2.2.2.2.1
      (Or.inr (Or.inr rfl))⟩

/-- C10: for every env `config.module.rules` has exactly 9 rules, in order the
script rule (matching .js/.jsx, excluding node_modules, babel-loader), the
stylesheet rule, the image rule (url-loader, limit 8192) and the six font rules
for woff, woff2, otf, ttf, eot, svg (url-loader, limit 10000, each with its
mimetype); with another env every rule but the stylesheet rule is the same,
and of the stylesheet rule only the loader of the first `use` entry can
differ. -/
theorem rules_fixed (node : Node) (project : Project) :
    (config node project).module.rules =
      [javaScriptRule, stylesRule node project, imagesRule,
       { test := "\\.woff$", exclude := none, use := [], loader := some "url-loader",
         options := LoaderOptions.url (some "fonts/[name].[ext]") 10000
           (some "application/font-woff") },
       { test := "\\.woff2$", exclude := none, use := [], loader := some "url-loader",
         options := LoaderOptions.url (some "fonts/[name].[ext]") 10000
           (some "application/font-woff2") },
       { test := "\\.otf$", exclude := none, use := [], loader := some "url-loader",
         options := LoaderOptions.url (some "fonts/[name].[ext]") 10000
           (some "font/opentype") },
       { test := "\\.ttf$", exclude := none, use := [], loader := some "url-loader",
         options := LoaderOptions.url (some "fonts/[name].[ext]") 10000
           (some "application/octet-stream") },
       { test := "\\.eot$", exclude := none, use := [], loader := some "url-loader",
         options := LoaderOptions.url (some "fonts/[name].[ext]") 10000
           (some "application/vnd.ms-fontobject") },
       { test := "\\.svg$", exclude := none, use := [], loader := some "url-loader",
         options := LoaderOptions.url (some "fonts/[name].[ext]") 10000
           (some "image/svg+xml") }] ∧
    (config node project).module.rules.length = 9 ∧
    (config node project).module.rules.map (fun rule => rule.test) =
      ["\\.(js|jsx)$", "\\.(sass|scss)$", "\\.(png|jpg|gif)$", "\\.woff$", "\\.woff2$",
       "\\.otf$", "\\.ttf$", "\\.eot$", "\\.svg$"] ∧
    javaScriptRule.exclude = some "node_modules" ∧
    javaScriptRule.use.map (fun entry => entry.loader) = [LoaderRef.named "babel-loader"] ∧
    imagesRule.loader = some "url-loader" ∧
    imagesRule.options = LoaderOptions.url none 8192 none ∧
    (∀ env : JSVal,
      (config node { project with env := env }).module.rules.eraseIdx 1 =
        (config node project).module.rules.eraseIdx 1 ∧
      (config node { project with env := env }).module.rules[1]? =
        some (stylesRule node { project with env := env }) ∧
      (stylesRule node { project with env := env }).test = (stylesRule node project).test ∧
      (stylesRule node { project with env := env }).exclude =
        (stylesRule node project).exclude ∧
      (stylesRule node { project with env := env }).loader =
        (stylesRule node project).loader ∧
      (stylesRule node { project with env := env }).options =
        (stylesRule node project).options ∧
      (stylesRule node { project with env := env }).use.map (fun entry => entry.options) =
        (stylesRule node project).use.map (fun entry => entry.options) ∧
      (stylesRule node { project with env := env }).use.tail =
        (stylesRule node project).use.tail) := by
  refine ⟨?_, ?_, ?_, rfl, rfl, rfl, rfl, fun env => ⟨?_, ?_, rfl, rfl, rfl, rfl, rfl, rfl⟩⟩
  · rw [config_rules]; rfl
  · rw [config_rules]; rfl
  · rw [config_rules]; rfl
  · rw [config_rules, config_rules]; rfl
  · rw [config_rules]; rfl

end Webpack
